import Mathlib

/-!
Shallow embedding of the Worship Vault application
(src/streamlit_app.py and src/app.py) and proofs about it.

Conventions of the embedding:
* Python strings are Lean `String`; the Python methods `strip`, `lower`
  and `replace(" ", "-")` are embedded as `pyStrip`, `pyLower`,
  `pyReplaceSpaceDash` over the character list of the string.
* The external tables (`vaults`, `vault_sessions`, `uploads`) are lists of
  row structures; the object-storage bucket content is an association
  list from object name to its byte content (bytes are modelled as a
  `String`).
* `datetime.utcnow()` is a `Nat` counting seconds; `timedelta(hours=24)`
  is `86400` seconds.
* Every backend call in the source is wrapped in try/except; a raised
  exception makes the surrounding operation report failure and leave the
  state as it was.  The storage `upload` call (no upsert option in the
  source) raises when the object already exists; `remove` does not raise
  on a missing object.  Where a claim concerns a write that may fail for
  external reasons, the upload call takes an explicit `writeOk` flag.
-/

namespace WorshipVault

/-! ## Python string helpers -/

/-- ASCII whitespace recognised by Python `str.strip()`. -/
def pyIsSpace (c : Char) : Bool :=
  c = ' ' || c = '\t' || c = '\n' || c = '\r' || c = '\x0b' || c = '\x0c'

/-- Drop leading and trailing whitespace from a character list. -/
def stripChars (l : List Char) : List Char :=
  ((l.dropWhile pyIsSpace).reverse.dropWhile pyIsSpace).reverse

/-- Python `s.strip()`. -/
def pyStrip (s : String) : String := String.mk (stripChars s.data)

/-- Python `s.lower()` (ASCII letters, as used by the vault names here). -/
def pyLower (s : String) : String := String.mk (s.data.map Char.toLower)

/-- Python `s.replace(" ", "-")`. -/
def pyReplaceSpaceDash (s : String) : String :=
  String.mk (s.data.map (fun c => if c = ' ' then '-' else c))

/-! ## Vaults table and login (home_page, src/streamlit_app.py lines 230-258) -/

/-- A row of the `vaults` table. -/
structure VaultRow where
  vault_name : String
  vault_passkey : String
  admin_passkey : String
deriving Repr, DecidableEq

/-- The case-insensitive key used by both the duplicate check and the
login lookup: `r.get("vault_name","").strip().lower()`. -/
def vaultKey (s : String) : String := pyLower (pyStrip s)

/-- The login lookup loop: first row whose stripped, lowered name equals
the stripped, lowered input (src/streamlit_app.py lines 239-243). -/
def lookup_vault (rows : List VaultRow) (vault_input : String) : Option VaultRow :=
  rows.find? (fun r => vaultKey r.vault_name == vaultKey vault_input)

/-- Outcome of pressing "Enter Vault": no such vault, wrong passkey, or a
session created with the two admin flags of `create_session`. -/
inductive LoginResult where
  | noVault
  | wrongKey
  | session (vault_name : String) (is_admin_internal : Bool) (is_ui_admin : Bool)
deriving Repr, DecidableEq

/-- The login decision of home_page (src/streamlit_app.py lines 245-258):
master key first (session flags (true, false)), then the vault admin
passkey ((true, true)), then the member passkey ((false, false)), else
IncorrectPasskey.  `masterKey` is `none` when MASTER_ADMIN_KEY is unset,
in which case the Python comparison with `None` is always false. -/
def enter_vault (masterKey : Option String) (rows : List VaultRow)
    (vault_input passkey_input : String) : LoginResult :=
  match lookup_vault rows vault_input with
  | none => .noVault
  | some row =>
    if some passkey_input = masterKey then .session row.vault_name true false
    else if passkey_input = row.admin_passkey then .session row.vault_name true true
    else if passkey_input = row.vault_passkey then .session row.vault_name false false
    else .wrongKey

/-- Authorization tiers named as in the spec; MASTER_ADMIN in the code is
the SUPER_ADMIN tier of the spec. -/
inductive Tier where
  | SUPER_ADMIN
  | VAULT_ADMIN
  | MEMBER
deriving Repr, DecidableEq

/-- The tier encoded by the two session flags, read off the actor
computation of the source (src/streamlit_app.py lines 324 and 397):
VAULT_ADMIN when both flags are set, SUPER_ADMIN when only the internal
flag is set, MEMBER otherwise. -/
def tierOfFlags (is_admin_internal is_ui_admin : Bool) : Tier :=
  if is_admin_internal && is_ui_admin then .VAULT_ADMIN
  else if is_admin_internal then .SUPER_ADMIN
  else .MEMBER

/-- The tier granted by a login attempt, when one is granted. -/
def loginTier (masterKey : Option String) (rows : List VaultRow)
    (vault_input passkey_input : String) : Option Tier :=
  match enter_vault masterKey rows vault_input passkey_input with
  | .session _ ii iu => some (tierOfFlags ii iu)
  | _ => none

/-! ## Vault creation (home_page, src/streamlit_app.py lines 260-295) -/

/-- The duplicate check and insert of "Create Vault": reject when some
row has the same stripped-lowered name as the stripped input; otherwise
append a row holding the stripped input with its two passkeys. -/
def create_vault (rows : List VaultRow) (new_name vault_pass admin_pass : String) :
    List VaultRow × Bool :=
  let normalized := pyStrip new_name
  if rows.any (fun r => vaultKey r.vault_name == pyLower normalized) then (rows, false)
  else (rows ++ [⟨normalized, vault_pass, admin_pass⟩], true)

/-- The storage container created for a new vault (line 283):
`normalized.lower().replace(" ", "-")`. -/
def creation_bucket_name (new_name : String) : String :=
  pyReplaceSpaceDash (pyLower (pyStrip new_name))

/-- The vault name stored in the vaults row and placed into the session
at creation and at login (lines 250-256, 270, 286-292): the stripped
input with its original casing. -/
def stored_vault_name (new_name : String) : String := pyStrip new_name

/-- vault_page and gallery_page (lines 298, 323, 336, 345, 374, 388-396,
408) pass st.session_state.vault_name itself as the bucket name of every
file operation. -/
def ops_bucket_name (session_vault_name : String) : String := session_vault_name

/-! ## Session store (src/streamlit_app.py lines 138-191) -/

/-- A row of the vault_sessions table. -/
structure SessionRow where
  token : String
  vault_name : String
  is_admin_internal : Bool
  is_ui_admin : Bool
  created_at : Nat
deriving Repr, DecidableEq

/-- The vault_sessions table. -/
abbrev SessionStore := List SessionRow

/-- create_session (lines 138-157): inserts the row carrying the token,
the vault name, the two flags, and the creation time. -/
def create_session (store : SessionStore) (now : Nat) (vault_name : String)
    (is_admin_internal is_ui_admin : Bool) (token : String) : SessionStore :=
  store ++ [⟨token, vault_name, is_admin_internal, is_ui_admin, now⟩]

/-- timedelta(hours=24), in seconds. -/
def twentyFourHours : Nat := 24 * 60 * 60

/-- validate_session (lines 159-179): invalid when no token is held,
when no row matches it, or when at least 24 hours have elapsed;
otherwise the stored (vault_name, is_admin_internal, is_ui_admin). -/
def validate_session (store : SessionStore) (now : Nat) (token : Option String) :
    Option (String × Bool × Bool) :=
  match token with
  | none => none
  | some t =>
    match store.find? (fun r => r.token == t) with
    | none => none
    | some row =>
      if now - row.created_at < twentyFourHours then
        some (row.vault_name, row.is_admin_internal, row.is_ui_admin)
      else none

/-- validate_session with the session table threaded through: the
function only issues a select, so the table coming out is the table that
went in; in particular an expired row is not deleted by validate. -/
def validate_session_state (store : SessionStore) (now : Nat) (token : Option String) :
    Option (String × Bool × Bool) × SessionStore :=
  (validate_session store now token, store)

/-- end_session (lines 181-191): deletes every row holding the token. -/
def end_session (store : SessionStore) (token : Option String) : SessionStore :=
  match token with
  | none => store
  | some t => store.filter (fun r => !(r.token == t))

/-! ## Object storage and the uploads table -/

/-- The content of one storage container: object name to byte content. -/
abbrev Bucket := List (String × String)

/-- The stored content of an object, if present. -/
def storGet (b : Bucket) (name : String) : Option String :=
  (b.find? (fun e => e.1 == name)).map (fun e => e.2)

/-- supabase storage `upload` as called by the source (no upsert
option): raises — modelled as `none` — when the object already exists or
when the backend write fails (`writeOk = false`); otherwise stores the
content under the name. -/
def storUpload (writeOk : Bool) (b : Bucket) (name content : String) : Option Bucket :=
  if writeOk && (storGet b name).isNone then some (b ++ [(name, content)]) else none

/-- supabase storage `remove`: drops the object if present; a missing
object is not an error. -/
def storRemove (b : Bucket) (name : String) : Bucket :=
  b.filter (fun e => !(e.1 == name))

/-- A row of the denormalized `uploads` table. -/
structure UploadRow where
  filename : String
  url : String
  vault_name : String
  created_at : Nat
deriving Repr, DecidableEq

/-- The state touched by the file catalog: the bucket addressed by the
operation plus the `uploads` table. -/
structure VaultState where
  bucket : Bucket
  uploads : List UploadRow
deriving Repr, DecidableEq

/-- The public URL written into the uploads table (the SUPABASE_URL
host part left implicit). -/
def publicUrl (bucket_name filename : String) : String :=
  "/storage/v1/object/public/" ++ bucket_name ++ "/" ++ filename

/-- upload_to_bucket (src/streamlit_app.py lines 76-91): the storage
upload followed by an uploads insert; a raised exception reports failure
and leaves the state unchanged. -/
def upload_to_bucket (writeOk : Bool) (s : VaultState)
    (bucket_name filename content : String) (now : Nat) : VaultState × Bool :=
  match storUpload writeOk s.bucket filename content with
  | none => (s, false)
  | some b2 =>
    ({ bucket := b2,
       uploads := s.uploads ++
         [⟨filename, publicUrl bucket_name filename, bucket_name, now⟩] },
     true)

/-- download_file_bytes (lines 93-113): the storage download of the
object; the signed-URL fallback fetches the same object, so a missing
object stays `none`. -/
def download_file_bytes (b : Bucket) (name : String) : Option String := storGet b name

/-- Code-point lexicographic less-or-equal on character lists: the
comparison Python uses on strings. -/
def lexLE : List Char → List Char → Bool
  | [], _ => true
  | _ :: _, [] => false
  | a :: as, b :: bs =>
    if a.toNat < b.toNat then true
    else if b.toNat < a.toNat then false
    else lexLE as bs

/-- The comparison under Python `sorted(files, key=lambda s: s.lower())`. -/
def lowerLE (a b : String) : Prop :=
  lexLE (pyLower a).data (pyLower b).data = true

instance : DecidableRel lowerLE :=
  fun a b => inferInstanceAs (Decidable (lexLE (pyLower a).data (pyLower b).data = true))

/-- list_bucket_files (lines 62-74): every object name of the bucket,
stably sorted by the lower-cased name (Python sorted is a stable sort by
the key, so any stable sort under the same comparison gives its output). -/
def list_bucket_files (b : Bucket) : List String :=
  List.insertionSort lowerLE (b.map (fun e => e.1))

/-- remove_file (lines 115-122): the storage remove plus the delete of
the matching uploads rows; neither call errors on an absent file. -/
def remove_file (s : VaultState) (bucket_name filename : String) : VaultState × Bool :=
  ({ bucket := storRemove s.bucket filename,
     uploads := s.uploads.filter
       (fun r => !(r.filename == filename && r.vault_name == bucket_name)) },
   true)

/-- Outcome of the rename flow of gallery_page. -/
inductive RenameOutcome where
  | renamed
  | downloadFailed
  | uploadFailed
deriving Repr, DecidableEq

/-- The uploads-table update of the rename flow (lines 392-395): set
filename and url on every row matching the old name and the vault. -/
def uploadsRename (uploads : List UploadRow) (vault oldName newName : String) :
    List UploadRow :=
  uploads.map (fun r =>
    if r.filename == oldName && r.vault_name == vault then
      { r with filename := newName, url := publicUrl vault newName }
    else r)

/-- The rename flow of gallery_page (lines 387-403): download the old
object (the Python guard `if b:` also fails on empty bytes), upload the
bytes under the new name (raises when the new name already exists or the
write fails), update the uploads rows, and only then remove the old
object.  An exception anywhere leaves the state unchanged. -/
def rename_file (writeOk : Bool) (s : VaultState) (vault oldName newName : String) :
    VaultState × RenameOutcome :=
  match download_file_bytes s.bucket oldName with
  | none => (s, .downloadFailed)
  | some b =>
    if b.isEmpty then (s, .downloadFailed)
    else
      match storUpload writeOk s.bucket newName b with
      | none => (s, .uploadFailed)
      | some b2 =>
        ({ bucket := storRemove b2 oldName,
           uploads := uploadsRename s.uploads vault oldName newName }, .renamed)

/-! ## Gallery page controls (gallery_page, src/streamlit_app.py lines 335-415) -/

/-- The interactive controls of one file card in the gallery. -/
inductive GalleryControl where
  | preview
  | renameButton
  | deleteButton
deriving Repr, DecidableEq

/-- The controls rendered on each file card: the preview and the rename
input with its button are rendered unconditionally (lines 372-403); the
delete button only under `if is_internal:` (lines 405-411). -/
def gallery_controls (is_admin_internal : Bool) (_is_ui_admin : Bool) :
    List GalleryControl :=
  [.preview, .renameButton] ++ (if is_admin_internal then [.deleteButton] else [])

/-! ## The local-folder variant (src/app.py) -/

/-- The upload flow of src/app.py (lines 28-38): refuse with a warning
when the path already exists in the folder; write the file otherwise.
The folder is an association list name to content. -/
def app_upload (folder : List (String × String)) (name content : String) :
    List (String × String) × Bool :=
  if (folder.find? (fun e => e.1 == name)).isSome then (folder, false)
  else (folder ++ [(name, content)], true)

end WorshipVault

namespace WorshipVault

/-- C1: strict priority order of the tier decision on an existing vault;
the master key wins even when it collides with the vault passkeys. -/
theorem tier_decision_priority (mk : String) (rows : List VaultRow)
    (vault_input passkey : String) (row : VaultRow)
    (hrow : lookup_vault rows vault_input = some row) :
    (passkey = mk →
      loginTier (some mk) rows vault_input passkey = some .SUPER_ADMIN) ∧
    (passkey ≠ mk → passkey = row.admin_passkey →
      loginTier (some mk) rows vault_input passkey = some .VAULT_ADMIN) ∧
    (passkey ≠ mk → passkey ≠ row.admin_passkey → passkey = row.vault_passkey →
      loginTier (some mk) rows vault_input passkey = some .MEMBER) ∧
    (passkey ≠ mk → passkey ≠ row.admin_passkey → passkey ≠ row.vault_passkey →
      enter_vault (some mk) rows vault_input passkey = .wrongKey) := by
  refine ⟨?_, ?_, ?_, ?_⟩
  · intro h
    subst h
    simp [loginTier, enter_vault, hrow, tierOfFlags]
  · intro hne h
    subst h
    simp [loginTier, enter_vault, hrow, tierOfFlags, hne]
  · intro hne hne2 h
    subst h
    simp [loginTier, enter_vault, hrow, tierOfFlags, hne, hne2]
  · intro hne hne2 hne3
    simp [enter_vault, hrow, hne, hne2, hne3]

/-- Witness for C1: a concrete vault where the master key equals the
member passkey and still yields SUPER_ADMIN, and the other branches. -/
theorem tier_decision_priority_witness :
    let rows := [VaultRow.mk "Youth Group" "S3CR3T" "a1"]
    lookup_vault rows "youth group" = some (VaultRow.mk "Youth Group" "S3CR3T" "a1") ∧
    loginTier (some "S3CR3T") rows "youth group" "S3CR3T" = some .SUPER_ADMIN ∧
    loginTier (some "S3CR3T") rows "youth group" "a1" = some .VAULT_ADMIN ∧
    enter_vault (some "S3CR3T") rows "youth group" "nope" = .wrongKey := by
  refine ⟨by decide, ?_, ?_, ?_⟩
  · exact (tier_decision_priority "S3CR3T" _ "youth group" "S3CR3T"
      (VaultRow.mk "Youth Group" "S3CR3T" "a1") (by decide)).1 rfl
  · exact (tier_decision_priority "S3CR3T" _ "youth group" "a1"
      (VaultRow.mk "Youth Group" "S3CR3T" "a1") (by decide)).2.1 (by decide) rfl
  · exact (tier_decision_priority "S3CR3T" _ "youth group" "nope"
      (VaultRow.mk "Youth Group" "S3CR3T" "a1") (by decide)).2.2.2
      (by decide) (by decide) (by decide)

end WorshipVault

namespace WorshipVault

/-- C2 counterexample: a MEMBER session (flags (false, false), as the
member login branch creates) does get the rename control in the gallery,
so a MEMBER can rename. -/
theorem member_rename_available :
    GalleryControl.renameButton ∈ gallery_controls false false := by decide

/-- C2 amended: for every login that yields a MEMBER-tier session, the
delete button is not rendered, but the rename control is; rename is not
restricted to admin tiers. -/
theorem member_gallery_controls (mk : Option String) (rows : List VaultRow)
    (vi pk vn : String) (ii iu : Bool)
    (h : enter_vault mk rows vi pk = .session vn ii iu)
    (hm : tierOfFlags ii iu = .MEMBER) :
    GalleryControl.deleteButton ∉ gallery_controls ii iu ∧
    GalleryControl.renameButton ∈ gallery_controls ii iu := by
  have hii : ii = false := by
    cases ii <;> cases iu <;> simp_all [tierOfFlags]
  subst hii
  simp [gallery_controls]

/-- Witness for C2 amended: a concrete member login. -/
theorem member_gallery_controls_witness :
    enter_vault none [VaultRow.mk "V" "m1" "a1"] "V" "m1" = .session "V" false false ∧
    tierOfFlags false false = .MEMBER ∧
    (GalleryControl.deleteButton ∉ gallery_controls false false ∧
     GalleryControl.renameButton ∈ gallery_controls false false) :=
  ⟨by decide, by decide,
   member_gallery_controls none [VaultRow.mk "V" "m1" "a1"] "V" "m1" "V" false false
     (by decide) (by decide)⟩

/-- C3: a freshly created session validates to exactly the stored
(vault_name, flags) strictly before 24 hours and is invalid at or after
24 hours, without the row being deleted by validate; a missing token or
a missing row is invalid, and so is the token after end_session. -/
theorem validate_session_correct (store : SessionStore) (now now2 : Nat)
    (vn : String) (ii iu : Bool) (tok : String)
    (hfresh : ∀ r ∈ store, r.token ≠ tok) :
    (now2 - now < twentyFourHours →
      validate_session (create_session store now vn ii iu tok) now2 (some tok)
        = some (vn, ii, iu)) ∧
    (twentyFourHours ≤ now2 - now →
      validate_session (create_session store now vn ii iu tok) now2 (some tok) = none) ∧
    (validate_session_state (create_session store now vn ii iu tok) now2 (some tok)).2
      = create_session store now vn ii iu tok ∧
    validate_session store now2 none = none ∧
    validate_session store now2 (some tok) = none ∧
    validate_session (end_session (create_session store now vn ii iu tok) (some tok))
      now2 (some tok) = none := by
  have hnone : store.find? (fun r => r.token == tok) = none := by
    rw [List.find?_eq_none]
    intro r hr
    simpa using hfresh r hr
  have hfind :
      (create_session store now vn ii iu tok).find? (fun r => r.token == tok)
        = some ⟨tok, vn, ii, iu, now⟩ := by
    simp [create_session, List.find?_append, hnone]
  refine ⟨?_, ?_, rfl, rfl, ?_, ?_⟩
  · intro hlt
    simp [validate_session, hfind, hlt]
  · intro hge
    simp [validate_session, hfind, Nat.not_lt.mpr hge]
  · simp [validate_session, hnone]
  · have : (end_session (create_session store now vn ii iu tok) (some tok)).find?
        (fun r => r.token == tok) = none := by
      rw [List.find?_eq_none]
      intro r hr
      simp only [end_session, List.mem_filter] at hr
      simpa using hr.2
    simp [validate_session, this]

/-- Witness for C3: a concrete session validated before and at the
24-hour mark. -/
theorem validate_session_correct_witness :
    validate_session (create_session [] 100 "V" true false "tok-1") 50000 (some "tok-1")
      = some ("V", true, false) ∧
    validate_session (create_session [] 100 "V" true false "tok-1") 86500 (some "tok-1")
      = none ∧
    validate_session (end_session (create_session [] 100 "V" true false "tok-1")
      (some "tok-1")) 50000 (some "tok-1") = none := by
  have h1 := validate_session_correct [] 100 50000 "V" true false "tok-1" (by simp)
  have h2 := validate_session_correct [] 100 86500 "V" true false "tok-1" (by simp)
  exact ⟨h1.1 (by decide), h2.2.1 (by decide), h1.2.2.2.2.2⟩

end WorshipVault

namespace WorshipVault

/-- C4: when the new name already exists in the bucket, the rename is
rejected and the state is unchanged — both the old and the new object
keep their contents; when the old object is also present (nonempty
bytes) the rejection is the upload conflict; and a missing old name is
likewise rejected unchanged. -/
theorem rename_conflict_rejected (s : VaultState) (vault oldName newName c : String)
    (hnew : storGet s.bucket newName = some c) :
    ((rename_file true s vault oldName newName).1 = s ∧
     (rename_file true s vault oldName newName).2 ≠ .renamed ∧
     storGet (rename_file true s vault oldName newName).1.bucket oldName
       = storGet s.bucket oldName ∧
     storGet (rename_file true s vault oldName newName).1.bucket newName = some c) ∧
    (∀ b, storGet s.bucket oldName = some b → b.isEmpty = false →
      (rename_file true s vault oldName newName).2 = .uploadFailed) ∧
    (storGet s.bucket oldName = none →
      rename_file true s vault oldName newName = (s, .downloadFailed)) := by
  have hup : storUpload true s.bucket newName = fun _ => none := by
    funext content
    simp [storUpload, hnew]
  refine ⟨?_, ?_, ?_⟩
  · cases hold : storGet s.bucket oldName with
    | none => simp [rename_file, download_file_bytes, hold, hnew]
    | some b =>
      by_cases hb : b.isEmpty
      · simp [rename_file, download_file_bytes, hold, hb, hnew]
      · simp [rename_file, download_file_bytes, hold, hb, storUpload, hnew]
  · intro b hold hb
    simp [rename_file, download_file_bytes, hold, hb, storUpload, hnew]
  · intro hold
    simp [rename_file, download_file_bytes, hold]

/-- Witness for C4: renaming "a.png" onto the existing "b.png" is
rejected with the conflict and changes nothing; renaming a missing
"c.png" is rejected too. -/
theorem rename_conflict_rejected_witness :
    (rename_file true ⟨[("a.png", "xx"), ("b.png", "yy")], []⟩ "v" "a.png" "b.png").1
      = ⟨[("a.png", "xx"), ("b.png", "yy")], []⟩ ∧
    (rename_file true ⟨[("a.png", "xx"), ("b.png", "yy")], []⟩ "v" "a.png" "b.png").2
      = .uploadFailed ∧
    rename_file true ⟨[("a.png", "xx"), ("b.png", "yy")], []⟩ "v" "c.png" "b.png"
      = (⟨[("a.png", "xx"), ("b.png", "yy")], []⟩, .downloadFailed) := by
  have h := rename_conflict_rejected ⟨[("a.png", "xx"), ("b.png", "yy")], []⟩
    "v" "a.png" "b.png" "yy" (by decide)
  have h2 := rename_conflict_rejected ⟨[("a.png", "xx"), ("b.png", "yy")], []⟩
    "v" "c.png" "b.png" "yy" (by decide)
  exact ⟨h.1.1, h.2.1 "xx" (by decide) (by decide), h2.2.2 (by decide)⟩

/-- C5: rename is copy-then-delete.  On success the final bucket is the
old name removed from the bucket already holding the bytes under the new
name; and when the write of the new name fails, the state is unchanged
and the old object is still retrievable with its bytes. -/
theorem rename_write_failure_safe (s : VaultState) (vault oldName newName b : String)
    (hold : storGet s.bucket oldName = some b) (hb : b.isEmpty = false) :
    (storGet s.bucket newName = none →
      rename_file true s vault oldName newName =
        ({ bucket := storRemove (s.bucket ++ [(newName, b)]) oldName,
           uploads := uploadsRename s.uploads vault oldName newName }, .renamed)) ∧
    ((rename_file false s vault oldName newName).1 = s ∧
     storGet (rename_file false s vault oldName newName).1.bucket oldName = some b ∧
     (rename_file false s vault oldName newName).2 ≠ .renamed) := by
  constructor
  · intro hnew
    simp [rename_file, download_file_bytes, hold, hb, storUpload, hnew]
  · have : rename_file false s vault oldName newName = (s, .uploadFailed) := by
      simp [rename_file, download_file_bytes, hold, hb, storUpload]
    simp [this, hold]

/-- Witness for C5: a successful rename writes "b.png" and then removes
"a.png"; with the write failing, "a.png" keeps its bytes. -/
theorem rename_write_failure_safe_witness :
    rename_file true ⟨[("a.png", "xx")], []⟩ "v" "a.png" "b.png"
      = (⟨[("b.png", "xx")], []⟩, .renamed) ∧
    (rename_file false ⟨[("a.png", "xx")], []⟩ "v" "a.png" "b.png").1
      = ⟨[("a.png", "xx")], []⟩ ∧
    storGet (rename_file false ⟨[("a.png", "xx")], []⟩ "v" "a.png" "b.png").1.bucket
      "a.png" = some "xx" := by
  have h := rename_write_failure_safe ⟨[("a.png", "xx")], []⟩ "v" "a.png" "b.png" "xx"
    (by decide) (by decide)
  refine ⟨?_, h.2.1, h.2.2.1⟩
  have hs := h.1 (by decide)
  rw [hs]
  decide

/-- C6: at the vault name "Youth Group", the container created at vault
creation is "youth-group", while vault_page and gallery_page address the
container "Youth Group" — the raw session vault name — for every file
operation, so the created container and the operated-on container
differ. -/
theorem bucket_name_mismatch :
    creation_bucket_name "Youth Group" = "youth-group" ∧
    ops_bucket_name (stored_vault_name "Youth Group") = "Youth Group" ∧
    creation_bucket_name "Youth Group"
      ≠ ops_bucket_name (stored_vault_name "Youth Group") := by
  refine ⟨by decide, by decide, by decide⟩

/-- C7 counterexample: re-uploading "a.png" does not overwrite.  The
src/app.py flow keeps the old content and warns; upload_to_bucket
reports failure because the storage upload raises on the existing
object. -/
theorem upload_no_overwrite_cex :
    app_upload [("a.png", "old")] "a.png" "new" = ([("a.png", "old")], false) ∧
    upload_to_bucket true ⟨[("a.png", "old")], []⟩ "v" "a.png" "new" 0
      = (⟨[("a.png", "old")], []⟩, false) := by
  constructor <;> decide

/-- C7 amended: an upload whose filename already exists is rejected and
leaves the state unchanged — src/app.py by its explicit existence check,
upload_to_bucket because the storage upload without the upsert option
fails on an existing object. -/
theorem upload_existing_rejected (folder : List (String × String))
    (s : VaultState) (bn name c0 c1 : String) (now : Nat)
    (hfolder : (folder.find? (fun e => e.1 == name)).isSome = true)
    (hbucket : storGet s.bucket name = some c0) :
    app_upload folder name c1 = (folder, false) ∧
    upload_to_bucket true s bn name c1 now = (s, false) := by
  constructor
  · simp [app_upload, hfolder]
  · simp [upload_to_bucket, storUpload, hbucket]

/-- Witness for C7 amended: the concrete re-upload of "a.png". -/
theorem upload_existing_rejected_witness :
    app_upload [("a.png", "old")] "a.png" "new2" = ([("a.png", "old")], false) ∧
    upload_to_bucket true ⟨[("a.png", "old")], []⟩ "v" "a.png" "new2" 0
      = (⟨[("a.png", "old")], []⟩, false) :=
  upload_existing_rejected [("a.png", "old")] ⟨[("a.png", "old")], []⟩ "v" "a.png"
    "old" "new2" 0 (by decide) (by decide)

/-- Totality of the lexicographic comparison. -/
theorem lexLE_total : ∀ (a b : List Char), lexLE a b = true ∨ lexLE b a = true
  | [], _ => Or.inl rfl
  | _ :: _, [] => Or.inr rfl
  | a :: as, b :: bs => by
    rcases Nat.lt_trichotomy a.toNat b.toNat with h | h | h
    · left
      simp [lexLE, h]
    · have h2 : ¬ a.toNat < b.toNat := by omega
      have h3 : ¬ b.toNat < a.toNat := by omega
      rcases lexLE_total as bs with ih | ih
      · left
        simp [lexLE, h2, h3, ih]
      · right
        simp [lexLE, h2, h3, ih]
    · right
      simp [lexLE, h]

/-- Transitivity of the lexicographic comparison. -/
theorem lexLE_trans :
    ∀ {a b c : List Char}, lexLE a b = true → lexLE b c = true → lexLE a c = true
  | [], _, _, _, _ => rfl
  | _ :: _, [], _, h1, _ => by simp [lexLE] at h1
  | _ :: _, _ :: _, [], _, h2 => by simp [lexLE] at h2
  | a :: as, b :: bs, c :: cs, h1, h2 => by
    by_cases hab : a.toNat < b.toNat
    · by_cases hbc : b.toNat < c.toNat
      · have : a.toNat < c.toNat := by omega
        simp [lexLE, this]
      · by_cases hcb : c.toNat < b.toNat
        · simp [lexLE, hbc, hcb] at h2
        · have : a.toNat < c.toNat := by omega
          simp [lexLE, this]
    · by_cases hba : b.toNat < a.toNat
      · simp [lexLE, hab, hba] at h1
      · by_cases hbc : b.toNat < c.toNat
        · have : a.toNat < c.toNat := by omega
          simp [lexLE, this]
        · by_cases hcb : c.toNat < b.toNat
          · simp [lexLE, hbc, hcb] at h2
          · have hac : ¬ a.toNat < c.toNat := by omega
            have hca : ¬ c.toNat < a.toNat := by omega
            simp only [lexLE, hab, hba, if_false] at h1
            simp only [lexLE, hbc, hcb, if_false] at h2
            simp [lexLE, hac, hca, lexLE_trans h1 h2]

instance : IsTotal String lowerLE :=
  ⟨fun a b => lexLE_total (pyLower a).data (pyLower b).data⟩

instance : IsTrans String lowerLE := ⟨fun _ _ _ h1 h2 => lexLE_trans h1 h2⟩

/-- C8 counterexample: a bucket holding the reserved-style secrets name
".vault-keys" — list_bucket_files returns it along with every other
name; no name is excluded from the listing. -/
theorem list_no_exclusion_cex :
    list_bucket_files [("B.png", "x"), (".vault-keys", "y"), ("a.png", "z")]
      = [".vault-keys", "a.png", "B.png"] := by decide

/-- C8 amended: list_bucket_files returns exactly the names present in
the bucket — no reserved-prefix exclusion is performed — sorted in
case-insensitive lexicographic order. -/
theorem list_bucket_files_sorted_all (b : Bucket) :
    List.Perm (list_bucket_files b) (b.map (fun e => e.1)) ∧
    (list_bucket_files b).Pairwise lowerLE :=
  ⟨List.perm_insertionSort lowerLE _, List.sorted_insertionSort lowerLE _⟩

end WorshipVault

namespace WorshipVault

/-- dropWhile is idempotent. -/
theorem dropWhile_dropWhile (p : Char → Bool) (l : List Char) :
    (l.dropWhile p).dropWhile p = l.dropWhile p := by
  induction l with
  | nil => rfl
  | cons a t ih =>
    by_cases h : p a
    · simp [List.dropWhile_cons, h, ih]
    · simp [List.dropWhile_cons, h]

/-- Stripping a character list twice is the same as stripping it once. -/
theorem stripChars_idem (l : List Char) : stripChars (stripChars l) = stripChars l := by
  have h1 : (stripChars l).dropWhile pyIsSpace = stripChars l := by
    unfold stripChars
    cases hBr : ((l.dropWhile pyIsSpace).reverse.dropWhile pyIsSpace).reverse with
    | nil => simp [hBr]
    | cons hd tl =>
      have hhead :
          ((l.dropWhile pyIsSpace).reverse.dropWhile pyIsSpace).reverse.head? = some hd := by
        rw [hBr]; rfl
      have hlast :
          ((l.dropWhile pyIsSpace).reverse.dropWhile pyIsSpace).getLast? = some hd := by
        rw [← List.head?_reverse]; exact hhead
      obtain ⟨t, ht⟩ := List.dropWhile_suffix (l := (l.dropWhile pyIsSpace).reverse) pyIsSpace
      have hlastA : (l.dropWhile pyIsSpace).reverse.getLast? = some hd := by
        rw [← ht, List.getLast?_append, hlast]
        rfl
      have hheadA : (l.dropWhile pyIsSpace).head? = some hd := by
        rw [← List.getLast?_reverse]; exact hlastA
      have hnot := List.head?_dropWhile_not pyIsSpace l
      rw [hheadA] at hnot
      have hfalse : pyIsSpace hd = false := hnot
      simp [List.dropWhile_cons, hfalse]
  unfold stripChars at h1 ⊢
  rw [h1]
  have h2 : ((l.dropWhile pyIsSpace).reverse.dropWhile pyIsSpace).reverse.reverse.dropWhile
      pyIsSpace = (l.dropWhile pyIsSpace).reverse.dropWhile pyIsSpace := by
    rw [List.reverse_reverse]
    exact dropWhile_dropWhile pyIsSpace (l.dropWhile pyIsSpace).reverse
  rw [h2]

/-- Python strip is idempotent. -/
theorem pyStrip_idem (s : String) : pyStrip (pyStrip s) = pyStrip s := by
  simp [pyStrip, stripChars_idem]

/-- The case-insensitive key does not change when the name is stripped
first. -/
theorem vaultKey_pyStrip (s : String) : vaultKey (pyStrip s) = vaultKey s := by
  simp [vaultKey, pyStrip_idem]

/-- C9: deleting an absent filename reports success and changes neither
the bucket nor the uploads table, and a repeated call does the same. -/
theorem remove_file_absent_noop (s : VaultState) (bn fn : String)
    (hobj : storGet s.bucket fn = none)
    (hrow : ∀ r ∈ s.uploads, ¬(r.filename = fn ∧ r.vault_name = bn)) :
    remove_file s bn fn = (s, true) ∧
    remove_file (remove_file s bn fn).1 bn fn = (s, true) := by
  have hfind : s.bucket.find? (fun e => e.1 == fn) = none := by
    cases hf : s.bucket.find? (fun e => e.1 == fn) with
    | none => rfl
    | some x => rw [storGet, hf] at hobj; simp at hobj
  have hbucket : storRemove s.bucket fn = s.bucket := by
    apply List.filter_eq_self.mpr
    intro e he
    have := List.find?_eq_none.mp hfind e he
    simpa using this
  have huploads :
      s.uploads.filter (fun r => !(r.filename == fn && r.vault_name == bn))
        = s.uploads := by
    apply List.filter_eq_self.mpr
    intro r hr
    have h := hrow r hr
    by_cases h1 : r.filename = fn
    · by_cases h2 : r.vault_name = bn
      · exact absurd ⟨h1, h2⟩ h
      · simp [h2]
    · simp [h1]
  have h1 : remove_file s bn fn = (s, true) := by
    unfold remove_file
    rw [hbucket, huploads]
  refine ⟨h1, ?_⟩
  rw [h1]
  exact h1

/-- Witness for C9: deleting "b.png", which is not stored, twice. -/
theorem remove_file_absent_noop_witness :
    remove_file ⟨[("a.png", "x")], [⟨"a.png", "u", "v", 0⟩]⟩ "v" "b.png"
      = (⟨[("a.png", "x")], [⟨"a.png", "u", "v", 0⟩]⟩, true) ∧
    remove_file (remove_file ⟨[("a.png", "x")], [⟨"a.png", "u", "v", 0⟩]⟩ "v" "b.png").1
      "v" "b.png" = (⟨[("a.png", "x")], [⟨"a.png", "u", "v", 0⟩]⟩, true) :=
  remove_file_absent_noop ⟨[("a.png", "x")], [⟨"a.png", "u", "v", 0⟩]⟩ "v" "b.png"
    (by decide) (by decide)

/-- C10: case-insensitive uniqueness of vault names.  After a successful
create, creating any name with the same stripped-lowered key is rejected
as a duplicate with the table unchanged, and a lookup under any casing
or surrounding whitespace resolves to the single created row. -/
theorem vault_names_unique (rows rows2 : List VaultRow) (n vp ap : String)
    (hc : create_vault rows n vp ap = (rows2, true)) :
    (∀ n2 vp2 ap2, vaultKey n2 = vaultKey n →
      create_vault rows2 n2 vp2 ap2 = (rows2, false)) ∧
    (∀ m, vaultKey m = vaultKey n →
      lookup_vault rows2 m = some ⟨pyStrip n, vp, ap⟩) := by
  by_cases hany : rows.any (fun r => vaultKey r.vault_name == pyLower (pyStrip n)) = true
  · simp [create_vault, hany] at hc
  · have hany2 : rows.any (fun r => vaultKey r.vault_name == pyLower (pyStrip n)) = false := by
      simpa using hany
    have hrows2 : rows2 = rows ++ [⟨pyStrip n, vp, ap⟩] := by
      simp [create_vault, hany2] at hc
      exact hc.symm
    have hkey : vaultKey (pyStrip n) = vaultKey n := vaultKey_pyStrip n
    have hnomatch : ∀ r ∈ rows, (vaultKey r.vault_name == vaultKey n) = false := by
      intro r hr
      have := List.any_eq_false.mp hany2 r hr
      simpa [vaultKey] using this
    constructor
    · intro n2 vp2 ap2 hn2
      have hc2 : rows2.any (fun r => vaultKey r.vault_name == pyLower (pyStrip n2)) = true := by
        rw [hrows2]
        have : (vaultKey (pyStrip n) == pyLower (pyStrip n2)) = true := by
          have h3 : pyLower (pyStrip n2) = vaultKey n2 := rfl
          rw [h3, hn2, hkey]
          simp
        simp [List.any_append, this]
      simp [create_vault, hc2]
    · intro m hm
      rw [hrows2]
      unfold lookup_vault
      rw [List.find?_append]
      have h1 : rows.find? (fun r => vaultKey r.vault_name == vaultKey m) = none := by
        rw [List.find?_eq_none]
        intro r hr
        rw [hm]
        simp [hnomatch r hr]
      have h2 : (vaultKey (pyStrip n) == vaultKey m) = true := by
        rw [hkey, hm]
        simp
      simp [h1, List.find?_cons, h2]

/-- Witness for C10: create "Youth Group", then a duplicate differing in
case and whitespace is rejected, and lookups under other casings find
the one row. -/
theorem vault_names_unique_witness :
    create_vault [] "Youth Group" "m1" "a1"
      = ([VaultRow.mk "Youth Group" "m1" "a1"], true) ∧
    create_vault [VaultRow.mk "Youth Group" "m1" "a1"] " YOUTH group " "x" "y"
      = ([VaultRow.mk "Youth Group" "m1" "a1"], false) ∧
    lookup_vault [VaultRow.mk "Youth Group" "m1" "a1"] "  youth GROUP"
      = some (VaultRow.mk "Youth Group" "m1" "a1") := by
  have h := vault_names_unique [] [VaultRow.mk "Youth Group" "m1" "a1"]
    "Youth Group" "m1" "a1" (by decide)
  exact ⟨by decide, h.1 " YOUTH group " "x" "y" (by decide), h.2 "  youth GROUP" (by decide)⟩

end WorshipVault
